import Mathlib

/-!
ChakraBridge: NativeJavaScriptExecutor.

A shallow embedding of `ReactWindows/ChakraBridge/NativeJavaScriptExecutor.cpp` and
`ChakraStringResult.h`.

The executor is a thin layer over an external JavaScript engine.  The engine is a
parameter of the development: a record `Engine` of primitives, each a function from the
engine state to a status code, an output and a new engine state.  Every operation of the
executor returns, next to its own return value, the final engine state and the ordered
list of the engine calls it made (`Event`), each with the status and the output the
engine answered.
-/

namespace ChakraBridge

/-! ## Data model -/

/-- Status code of the engine (`JsErrorCode`, returned as `int`). -/
abbrev JsErrorCode := Int

/-- Success status of the engine. -/
def JsNoError : JsErrorCode := 0

/-- Host text (`String^`, a counted sequence of `wchar_t`); the counted representation
keeps embedded NUL characters. -/
abbrev WideString := List Char

/-- The fixed name of the batched bridge global, `BATCH_BRIDGE`. -/
def BATCH_BRIDGE : WideString := "__fbBatchedBridge".toList

/-- The value struct `ChakraStringResult`: `Result` is `none` for `nullptr`. -/
structure ChakraStringResult where
  ErrorCode : JsErrorCode
  Result : Option WideString
deriving DecidableEq, Repr

/-- Answer of one engine primitive: the status it returned, what it wrote to its output
parameter, and the engine state after the call. -/
structure Reply (σ β : Type) where
  status : JsErrorCode
  out : β
  state : σ

/-- The object behind `this->host`: the field `globalObject` read by the executor and the
state of the engine it wraps.  The operations of the Ready state never assign the field. -/
structure ChakraHost (σ V : Type) where
  globalObject : V
  engine : σ

/-- The engine collaborator.  `V` is `JsValueRef`, `P` is `JsPropertyIdRef`, `σ` the
engine state.  `construct` is `new ChakraHost()`. -/
structure Engine (σ V P : Type) where
  construct : ChakraHost σ V
  Init : ChakraHost σ V → JsErrorCode × ChakraHost σ V
  Destroy : ChakraHost σ V → JsErrorCode × ChakraHost σ V
  JsPointerToString : σ → WideString → Nat → Reply σ V
  JsStringToPointer : σ → V → Reply σ (WideString × Nat)
  JsonParse : σ → V → Reply σ V
  JsonStringify : σ → V → Reply σ V
  SetGlobalVariable : σ → WideString → V → Reply σ Unit
  GetGlobalVariable : σ → WideString → Reply σ V
  RunScript : σ → WideString → WideString → Reply σ V
  SerializeScript : σ → WideString → WideString → Reply σ Unit
  RunSerializedScript : σ → WideString → WideString → WideString → Reply σ V
  JsGetPropertyIdFromName : σ → WideString → Reply σ P
  JsGetProperty : σ → V → P → Reply σ V
  JsIntToNumber : σ → Int → Reply σ V
  JsCallFunction : σ → V → List V → Nat → Reply σ V

/-- One engine call as the executor made it: the arguments passed, the status returned and
the output written. -/
inductive Event (V P : Type) where
  | JsPointerToString (chars : WideString) (len : Nat) (status : JsErrorCode) (out : V)
  | JsStringToPointer (value : V) (status : JsErrorCode) (szBuf : WideString) (bufLen : Nat)
  | JsonParse (value : V) (status : JsErrorCode) (out : V)
  | JsonStringify (value : V) (status : JsErrorCode) (out : V)
  | SetGlobalVariable (name : WideString) (value : V) (status : JsErrorCode)
  | GetGlobalVariable (name : WideString) (status : JsErrorCode) (out : V)
  | RunScript (source sourceUri : WideString) (status : JsErrorCode) (out : V)
  | SerializeScript (source serialized : WideString) (status : JsErrorCode)
  | RunSerializedScript (source serialized sourceUri : WideString) (status : JsErrorCode)
      (out : V)
  | JsGetPropertyIdFromName (name : WideString) (status : JsErrorCode) (out : P)
  | JsGetProperty (object : V) (id : P) (status : JsErrorCode) (out : V)
  | JsIntToNumber (n : Int) (status : JsErrorCode) (out : V)
  | JsCallFunction (function : V) (args : List V) (argc : Nat) (status : JsErrorCode)
      (out : V)
deriving DecidableEq, Repr

/-- Which primitive an engine call went to. -/
inductive Kind where
  | JsPointerToString | JsStringToPointer | JsonParse | JsonStringify
  | SetGlobalVariable | GetGlobalVariable | RunScript | SerializeScript
  | RunSerializedScript | JsGetPropertyIdFromName | JsGetProperty | JsIntToNumber
  | JsCallFunction
deriving DecidableEq, Repr

/-- The primitive of an engine call. -/
def Event.kind {V P : Type} : Event V P → Kind
  | .JsPointerToString .. => .JsPointerToString
  | .JsStringToPointer .. => .JsStringToPointer
  | .JsonParse .. => .JsonParse
  | .JsonStringify .. => .JsonStringify
  | .SetGlobalVariable .. => .SetGlobalVariable
  | .GetGlobalVariable .. => .GetGlobalVariable
  | .RunScript .. => .RunScript
  | .SerializeScript .. => .SerializeScript
  | .RunSerializedScript .. => .RunSerializedScript
  | .JsGetPropertyIdFromName .. => .JsGetPropertyIdFromName
  | .JsGetProperty .. => .JsGetProperty
  | .JsIntToNumber .. => .JsIntToNumber
  | .JsCallFunction .. => .JsCallFunction

/-- The status the engine returned for a call. -/
def Event.status {V P : Type} : Event V P → JsErrorCode
  | .JsPointerToString _ _ st _ => st
  | .JsStringToPointer _ st _ _ => st
  | .JsonParse _ st _ => st
  | .JsonStringify _ st _ => st
  | .SetGlobalVariable _ _ st => st
  | .GetGlobalVariable _ st _ => st
  | .RunScript _ _ st _ => st
  | .SerializeScript _ _ st => st
  | .RunSerializedScript _ _ _ st _ => st
  | .JsGetPropertyIdFromName _ st _ => st
  | .JsGetProperty _ _ st _ => st
  | .JsIntToNumber _ st _ => st
  | .JsCallFunction _ _ _ st _ => st

/-- Whether the call went to the call-function primitive. -/
def Event.isCallFunction {V P : Type} (e : Event V P) : Bool :=
  e.kind == Kind.JsCallFunction

/-- Whether the call went to the set-global operation of the host. -/
def Event.isSetGlobalVariable {V P : Type} (e : Event V P) : Bool :=
  e.kind == Kind.SetGlobalVariable

/-- Whether the call is a property lookup (`JsGetPropertyIdFromName`, `JsGetProperty`). -/
def Event.isLookup {V P : Type} (e : Event V P) : Bool :=
  e.kind == Kind.JsGetPropertyIdFromName || e.kind == Kind.JsGetProperty

/-- What an operation of the executor leaves behind: its return value, the engine state
and the engine calls made, first call first. -/
structure Outcome (σ V P ρ : Type) where
  value : ρ
  state : σ
  trace : List (Event V P)

/-- An engine call together with its record for the trace. -/
structure Step (σ V P β : Type) where
  reply : Reply σ β
  event : Event V P

/-! ## Engine calls, recorded -/

section Calls

variable {σ V P : Type} (E : Engine σ V P)

/-- Recorded call of `JsPointerToString`. -/
def callJsPointerToString (s : σ) (chars : WideString) (len : Nat) : Step σ V P V :=
  let r := E.JsPointerToString s chars len
  ⟨r, .JsPointerToString chars len r.status r.out⟩

/-- Recorded call of `JsStringToPointer`. -/
def callJsStringToPointer (s : σ) (value : V) : Step σ V P (WideString × Nat) :=
  let r := E.JsStringToPointer s value
  ⟨r, .JsStringToPointer value r.status r.out.1 r.out.2⟩

/-- Recorded call of `host->JsonParse`. -/
def callJsonParse (s : σ) (value : V) : Step σ V P V :=
  let r := E.JsonParse s value
  ⟨r, .JsonParse value r.status r.out⟩

/-- Recorded call of `host->JsonStringify`. -/
def callJsonStringify (s : σ) (value : V) : Step σ V P V :=
  let r := E.JsonStringify s value
  ⟨r, .JsonStringify value r.status r.out⟩

/-- Recorded call of `host->SetGlobalVariable`. -/
def callSetGlobalVariable (s : σ) (name : WideString) (value : V) : Step σ V P Unit :=
  let r := E.SetGlobalVariable s name value
  ⟨r, .SetGlobalVariable name value r.status⟩

/-- Recorded call of `host->GetGlobalVariable`. -/
def callGetGlobalVariable (s : σ) (name : WideString) : Step σ V P V :=
  let r := E.GetGlobalVariable s name
  ⟨r, .GetGlobalVariable name r.status r.out⟩

/-- Recorded call of `host->RunScript`. -/
def callRunScript (s : σ) (source sourceUri : WideString) : Step σ V P V :=
  let r := E.RunScript s source sourceUri
  ⟨r, .RunScript source sourceUri r.status r.out⟩

/-- Recorded call of `host->SerializeScript`. -/
def callSerializeScript (s : σ) (source serialized : WideString) : Step σ V P Unit :=
  let r := E.SerializeScript s source serialized
  ⟨r, .SerializeScript source serialized r.status⟩

/-- Recorded call of `host->RunSerializedScript`. -/
def callRunSerializedScript (s : σ) (source serialized sourceUri : WideString) :
    Step σ V P V :=
  let r := E.RunSerializedScript s source serialized sourceUri
  ⟨r, .RunSerializedScript source serialized sourceUri r.status r.out⟩

/-- Recorded call of `JsGetPropertyIdFromName`. -/
def callJsGetPropertyIdFromName (s : σ) (name : WideString) : Step σ V P P :=
  let r := E.JsGetPropertyIdFromName s name
  ⟨r, .JsGetPropertyIdFromName name r.status r.out⟩

/-- Recorded call of `JsGetProperty`. -/
def callJsGetProperty (s : σ) (object : V) (id : P) : Step σ V P V :=
  let r := E.JsGetProperty s object id
  ⟨r, .JsGetProperty object id r.status r.out⟩

/-- Recorded call of `JsIntToNumber`. -/
def callJsIntToNumber (s : σ) (n : Int) : Step σ V P V :=
  let r := E.JsIntToNumber s n
  ⟨r, .JsIntToNumber n r.status r.out⟩

/-- Recorded call of `JsCallFunction`. -/
def callJsCallFunction (s : σ) (function : V) (args : List V) (argc : Nat) :
    Step σ V P V :=
  let r := E.JsCallFunction s function args argc
  ⟨r, .JsCallFunction function args argc r.status r.out⟩

end Calls

/-! ## The early-return macros -/

/-- Modelled from the spec: the macro `IfFailRet`, defined in a header that is not among
the sources.  It evaluates the engine call; the first non-success status aborts the
remaining steps of the operation and is returned immediately, otherwise the operation
goes on with the output of the call. -/
def IfFailRet {σ V P β : Type} (c : Step σ V P β)
    (rest : β → σ → Outcome σ V P JsErrorCode) : Outcome σ V P JsErrorCode :=
  if c.reply.status = JsNoError then
    let o := rest c.reply.out c.reply.state
    ⟨o.value, o.state, c.event :: o.trace⟩
  else
    ⟨c.reply.status, c.reply.state, [c.event]⟩

/-- Modelled from the spec: the macro `IfFailRetNullPtr`, defined in a header that is not
among the sources.  As `IfFailRet`, for the operations that return a
`ChakraStringResult`: on a non-success status it returns that status with a null text. -/
def IfFailRetNullPtr {σ V P β : Type} (c : Step σ V P β)
    (rest : β → σ → Outcome σ V P ChakraStringResult) : Outcome σ V P ChakraStringResult :=
  if c.reply.status = JsNoError then
    let o := rest c.reply.out c.reply.state
    ⟨o.value, o.state, c.event :: o.trace⟩
  else
    ⟨⟨c.reply.status, none⟩, c.reply.state, [c.event]⟩

/-! ## String helpers -/

/-- `NativeJavaScriptExecutor::StringLength`: the number of characters of the text. -/
def StringLength (string : WideString) : Nat := string.length

/-- `NativeJavaScriptExecutor::StringChars`: the character data of the text. -/
def StringChars (string : WideString) : WideString := string

/-- `NativeJavaScriptExecutor::CreateString`: a new host string made of the first `length`
characters at `szBuf`.  It is a string object, never the null handle. -/
def CreateString (szBuf : WideString) (length : Nat) : WideString := szBuf.take length

/-! ## Operations of the Ready state

They run on the object behind `this->host`, which the caller guarantees to be there. -/

section Operations

variable {σ V P : Type} (E : Engine σ V P)

/-- `NativeJavaScriptExecutor::SetGlobalVariable`. -/
def SetGlobalVariable (host : ChakraHost σ V) (variableName stringifiedText : WideString) :
    Outcome σ V P JsErrorCode :=
  IfFailRet (callJsPointerToString E host.engine (StringChars stringifiedText)
      (StringLength stringifiedText)) fun valueStringified s1 =>
  IfFailRet (callJsonParse E s1 valueStringified) fun valueJson s2 =>
  IfFailRet (callSetGlobalVariable E s2 (StringChars variableName) valueJson) fun _ s3 =>
  ⟨JsNoError, s3, []⟩

/-- `NativeJavaScriptExecutor::GetGlobalVariable`. -/
def GetGlobalVariable (host : ChakraHost σ V) (variableName : WideString) :
    Outcome σ V P ChakraStringResult :=
  IfFailRetNullPtr (callGetGlobalVariable E host.engine (StringChars variableName))
    fun globalVariable s1 =>
  IfFailRetNullPtr (callJsonStringify E s1 globalVariable) fun globalVariableJson s2 =>
  IfFailRetNullPtr (callJsStringToPointer E s2 globalVariableJson) fun buf s3 =>
  ⟨⟨JsNoError, some (CreateString buf.1 buf.2)⟩, s3, []⟩

/-- `NativeJavaScriptExecutor::RunScript`. -/
def RunScript (host : ChakraHost σ V) (source sourceUri : WideString) :
    Outcome σ V P JsErrorCode :=
  IfFailRet (callRunScript E host.engine (StringChars source) (StringChars sourceUri))
    fun _ s1 =>
  ⟨JsNoError, s1, []⟩

/-- `NativeJavaScriptExecutor::SerializeScript`. -/
def SerializeScript (host : ChakraHost σ V) (source serialized : WideString) :
    Outcome σ V P JsErrorCode :=
  IfFailRet (callSerializeScript E host.engine (StringChars source) (StringChars serialized))
    fun _ s1 =>
  ⟨JsNoError, s1, []⟩

/-- `NativeJavaScriptExecutor::RunSerializedScript`. -/
def RunSerializedScript (host : ChakraHost σ V) (source serialized sourceUri : WideString) :
    Outcome σ V P JsErrorCode :=
  IfFailRet (callRunSerializedScript E host.engine (StringChars source)
      (StringChars serialized) (StringChars sourceUri)) fun _ s1 =>
  ⟨JsNoError, s1, []⟩

/-- `NativeJavaScriptExecutor::CallFunctionAndReturnFlushedQueue`. -/
def CallFunctionAndReturnFlushedQueue (host : ChakraHost σ V)
    (moduleName methodName args : WideString) : Outcome σ V P ChakraStringResult :=
  IfFailRetNullPtr (callJsGetPropertyIdFromName E host.engine BATCH_BRIDGE)
    fun fbBridgeId s1 =>
  IfFailRetNullPtr (callJsGetProperty E s1 host.globalObject fbBridgeId)
    fun fbBridgeObj s2 =>
  IfFailRetNullPtr (callJsGetPropertyIdFromName E s2 "callFunctionReturnFlushedQueue".toList)
    fun methodId s3 =>
  IfFailRetNullPtr (callJsGetProperty E s3 fbBridgeObj methodId) fun method s4 =>
  IfFailRetNullPtr (callJsPointerToString E s4 (StringChars moduleName)
      (StringLength moduleName)) fun moduleNameRef s5 =>
  IfFailRetNullPtr (callJsPointerToString E s5 (StringChars methodName)
      (StringLength methodName)) fun methodNameRef s6 =>
  IfFailRetNullPtr (callJsPointerToString E s6 (StringChars args) (StringLength args))
    fun argObj s7 =>
  IfFailRetNullPtr (callJsonParse E s7 argObj) fun jsonObj s8 =>
  IfFailRetNullPtr (callJsCallFunction E s8 method
      [host.globalObject, moduleNameRef, methodNameRef, jsonObj] 4) fun result s9 =>
  IfFailRetNullPtr (callJsonStringify E s9 result) fun stringifiedResult s10 =>
  IfFailRetNullPtr (callJsStringToPointer E s10 stringifiedResult) fun buf s11 =>
  ⟨⟨JsNoError, some (CreateString buf.1 buf.2)⟩, s11, []⟩

/-- `NativeJavaScriptExecutor::InvokeCallbackAndReturnFlushedQueue`. -/
def InvokeCallbackAndReturnFlushedQueue (host : ChakraHost σ V) (callbackId : Int)
    (args : WideString) : Outcome σ V P ChakraStringResult :=
  IfFailRetNullPtr (callJsGetPropertyIdFromName E host.engine BATCH_BRIDGE)
    fun fbBridgeId s1 =>
  IfFailRetNullPtr (callJsGetProperty E s1 host.globalObject fbBridgeId)
    fun fbBridgeObj s2 =>
  IfFailRetNullPtr (callJsGetPropertyIdFromName E s2
      "invokeCallbackAndReturnFlushedQueue".toList) fun methodId s3 =>
  IfFailRetNullPtr (callJsGetProperty E s3 fbBridgeObj methodId) fun method s4 =>
  IfFailRetNullPtr (callJsIntToNumber E s4 callbackId) fun callbackIdRef s5 =>
  IfFailRetNullPtr (callJsPointerToString E s5 (StringChars args) (StringLength args))
    fun argsObj s6 =>
  IfFailRetNullPtr (callJsonParse E s6 argsObj) fun argsJson s7 =>
  IfFailRetNullPtr (callJsCallFunction E s7 method
      [host.globalObject, callbackIdRef, argsJson] 3) fun result s8 =>
  IfFailRetNullPtr (callJsonStringify E s8 result) fun stringifiedResult s9 =>
  IfFailRetNullPtr (callJsStringToPointer E s9 stringifiedResult) fun buf s10 =>
  ⟨⟨JsNoError, some (CreateString buf.1 buf.2)⟩, s10, []⟩

/-- `NativeJavaScriptExecutor::FlushedQueue`. -/
def FlushedQueue (host : ChakraHost σ V) : Outcome σ V P ChakraStringResult :=
  IfFailRetNullPtr (callJsGetPropertyIdFromName E host.engine BATCH_BRIDGE)
    fun fbBridgeId s1 =>
  IfFailRetNullPtr (callJsGetProperty E s1 host.globalObject fbBridgeId)
    fun fbBridgeObj s2 =>
  IfFailRetNullPtr (callJsGetPropertyIdFromName E s2 "flushedQueue".toList)
    fun methodId s3 =>
  IfFailRetNullPtr (callJsGetProperty E s3 fbBridgeObj methodId) fun method s4 =>
  IfFailRetNullPtr (callJsCallFunction E s4 method [host.globalObject] 1) fun result s5 =>
  IfFailRetNullPtr (callJsonStringify E s5 result) fun stringifiedResult s6 =>
  IfFailRetNullPtr (callJsStringToPointer E s6 stringifiedResult) fun buf s7 =>
  ⟨⟨JsNoError, some (CreateString buf.1 buf.2)⟩, s7, []⟩

end Operations

/-! ## All operations of the Ready state under one type -/

/-- An operation of the Ready state with its arguments. -/
inductive Op where
  | SetGlobalVariable (variableName stringifiedText : WideString)
  | GetGlobalVariable (variableName : WideString)
  | RunScript (source sourceUri : WideString)
  | SerializeScript (source serialized : WideString)
  | RunSerializedScript (source serialized sourceUri : WideString)
  | CallFunctionAndReturnFlushedQueue (moduleName methodName args : WideString)
  | InvokeCallbackAndReturnFlushedQueue (callbackId : Int) (args : WideString)
  | FlushedQueue
deriving DecidableEq, Repr

/-- Keeps the status of a `ChakraStringResult` outcome. -/
def Outcome.errorCode {σ V P : Type} (o : Outcome σ V P ChakraStringResult) :
    Outcome σ V P JsErrorCode :=
  ⟨o.value.ErrorCode, o.state, o.trace⟩

/-- Runs an operation and keeps the status it returns (the `ErrorCode` for the operations
that return a `ChakraStringResult`). -/
def Op.run {σ V P : Type} (E : Engine σ V P) (host : ChakraHost σ V) :
    Op → Outcome σ V P JsErrorCode
  | .SetGlobalVariable n t => ChakraBridge.SetGlobalVariable E host n t
  | .GetGlobalVariable n => (ChakraBridge.GetGlobalVariable E host n).errorCode
  | .RunScript s u => ChakraBridge.RunScript E host s u
  | .SerializeScript s z => ChakraBridge.SerializeScript E host s z
  | .RunSerializedScript s z u => ChakraBridge.RunSerializedScript E host s z u
  | .CallFunctionAndReturnFlushedQueue m f a =>
      (ChakraBridge.CallFunctionAndReturnFlushedQueue E host m f a).errorCode
  | .InvokeCallbackAndReturnFlushedQueue c a =>
      (ChakraBridge.InvokeCallbackAndReturnFlushedQueue E host c a).errorCode
  | .FlushedQueue => (ChakraBridge.FlushedQueue E host).errorCode

/-- The step order of an operation as the specification lists it: which engine primitive
each step calls. -/
def Op.steps : Op → List Kind
  | .SetGlobalVariable .. => [.JsPointerToString, .JsonParse, .SetGlobalVariable]
  | .GetGlobalVariable .. => [.GetGlobalVariable, .JsonStringify, .JsStringToPointer]
  | .RunScript .. => [.RunScript]
  | .SerializeScript .. => [.SerializeScript]
  | .RunSerializedScript .. => [.RunSerializedScript]
  | .CallFunctionAndReturnFlushedQueue .. =>
      [.JsGetPropertyIdFromName, .JsGetProperty, .JsGetPropertyIdFromName, .JsGetProperty,
        .JsPointerToString, .JsPointerToString, .JsPointerToString, .JsonParse,
        .JsCallFunction, .JsonStringify, .JsStringToPointer]
  | .InvokeCallbackAndReturnFlushedQueue .. =>
      [.JsGetPropertyIdFromName, .JsGetProperty, .JsGetPropertyIdFromName, .JsGetProperty,
        .JsIntToNumber, .JsPointerToString, .JsonParse, .JsCallFunction, .JsonStringify,
        .JsStringToPointer]
  | .FlushedQueue =>
      [.JsGetPropertyIdFromName, .JsGetProperty, .JsGetPropertyIdFromName, .JsGetProperty,
        .JsCallFunction, .JsonStringify, .JsStringToPointer]

/-- The fail-fast policy of the specification, as a check of a trace against a step order
and a returned status: the calls follow the step order; after a call that did not succeed
no further call is made and its status is the one returned; when every step was made and
succeeded the returned status is `JsNoError`. -/
def FailFast {V P : Type} : List Kind → List (Event V P) → JsErrorCode → Prop
  | [], [], ret => ret = JsNoError
  | k :: ks, e :: es, ret =>
      e.kind = k ∧
        if e.status = JsNoError then FailFast ks es ret else es = [] ∧ ret = e.status
  | _, _, _ => False

/-- Makes the call that a trace entry records, with the arguments of the entry, on the
engine in state `s`: the entry as the engine answers it (status and output) and the engine
state after the call. -/
def Event.replay {σ V P : Type} (E : Engine σ V P) (s : σ) : Event V P → Event V P × σ
  | .JsPointerToString chars len _ _ =>
      let r := E.JsPointerToString s chars len
      (.JsPointerToString chars len r.status r.out, r.state)
  | .JsStringToPointer value _ _ _ =>
      let r := E.JsStringToPointer s value
      (.JsStringToPointer value r.status r.out.1 r.out.2, r.state)
  | .JsonParse value _ _ =>
      let r := E.JsonParse s value
      (.JsonParse value r.status r.out, r.state)
  | .JsonStringify value _ _ =>
      let r := E.JsonStringify s value
      (.JsonStringify value r.status r.out, r.state)
  | .SetGlobalVariable name value _ =>
      let r := E.SetGlobalVariable s name value
      (.SetGlobalVariable name value r.status, r.state)
  | .GetGlobalVariable name _ _ =>
      let r := E.GetGlobalVariable s name
      (.GetGlobalVariable name r.status r.out, r.state)
  | .RunScript source sourceUri _ _ =>
      let r := E.RunScript s source sourceUri
      (.RunScript source sourceUri r.status r.out, r.state)
  | .SerializeScript source serialized _ =>
      let r := E.SerializeScript s source serialized
      (.SerializeScript source serialized r.status, r.state)
  | .RunSerializedScript source serialized sourceUri _ _ =>
      let r := E.RunSerializedScript s source serialized sourceUri
      (.RunSerializedScript source serialized sourceUri r.status r.out, r.state)
  | .JsGetPropertyIdFromName name _ _ =>
      let r := E.JsGetPropertyIdFromName s name
      (.JsGetPropertyIdFromName name r.status r.out, r.state)
  | .JsGetProperty object id _ _ =>
      let r := E.JsGetProperty s object id
      (.JsGetProperty object id r.status r.out, r.state)
  | .JsIntToNumber n _ _ =>
      let r := E.JsIntToNumber s n
      (.JsIntToNumber n r.status r.out, r.state)
  | .JsCallFunction function args argc _ _ =>
      let r := E.JsCallFunction s function args argc
      (.JsCallFunction function args argc r.status r.out, r.state)

/-- The trace is what the engine did: starting from the engine state `s`, every entry
carries the status and the output that the engine answers to the call with the arguments
of the entry, made in the state that the calls before it left, and `final` is the state
that the last call left (`s` itself when no call was made).  An engine call that is not in
the trace, or an entry that is not the answer of the engine, breaks it. -/
def Replays {σ V P : Type} (E : Engine σ V P) : σ → List (Event V P) → σ → Prop
  | s, [], final => final = s
  | s, e :: es, final => (e.replay E s).1 = e ∧ Replays E (e.replay E s).2 es final

/-! ## Lifecycle -/

/-- The executor object with the part of the heap it allocates from.  `host` is
`this->host`: `none` is `nullptr`, `some (a, h)` points to the `ChakraHost` object of
identity `a` whose content is `h`.  `live` lists the identities of the `ChakraHost`
objects created by `new` and not yet passed to `delete`; `next` is the identity the next
`new` gives. -/
structure NativeJavaScriptExecutor (σ V : Type) where
  host : Option (Nat × ChakraHost σ V)
  live : List Nat
  next : Nat

/-- `NativeJavaScriptExecutor::InitializeHost`: stores a newly constructed `ChakraHost` in
`this->host` and returns the status of its `Init`. -/
def InitializeHost {σ V P : Type} (E : Engine σ V P) (this : NativeJavaScriptExecutor σ V) :
    JsErrorCode × NativeJavaScriptExecutor σ V :=
  let a := this.next
  let r := E.Init E.construct
  (r.1, { host := some (a, r.2), live := a :: this.live, next := a + 1 })

/-- `NativeJavaScriptExecutor::DisposeHost`: `none` when `this->host` is null (the
dereference is undefined), otherwise the status of `Destroy`, with the object deleted and
`this->host` set to null. -/
def DisposeHost {σ V P : Type} (E : Engine σ V P) (this : NativeJavaScriptExecutor σ V) :
    Option (JsErrorCode × NativeJavaScriptExecutor σ V) :=
  match this.host with
  | none => none
  | some (a, h) =>
      let ret := (E.Destroy h).1
      some (ret, { host := none, live := this.live.filter (fun b => b != a),
                   next := this.next })

/-- The executor is Uninitialized: it holds no host handle. -/
def NativeJavaScriptExecutor.Uninitialized {σ V : Type}
    (this : NativeJavaScriptExecutor σ V) : Prop :=
  this.host = none

/-- The executor is Ready: it holds the handle of a live `ChakraHost`, and the heap hands
out identities it has not handed out before. -/
def NativeJavaScriptExecutor.Ready {σ V : Type} (this : NativeJavaScriptExecutor σ V) :
    Prop :=
  (∃ a h, this.host = some (a, h) ∧ a ∈ this.live) ∧ ∀ b ∈ this.live, b < this.next

/-! ## Conditions on the engine used by the statements -/

/-- The batched bridge object is absent from the global object of the host: looking
`__fbBatchedBridge` up on the global object either reports a non-success status, or
answers with a value (such as `undefined`) on which every member lookup reports a
non-success status. -/
def BridgeAbsent {σ V P : Type} (E : Engine σ V P) (host : ChakraHost σ V) : Prop :=
  let r1 := E.JsGetPropertyIdFromName host.engine BATCH_BRIDGE
  let r2 := E.JsGetProperty r1.state host.globalObject r1.out
  r2.status ≠ JsNoError ∨ ∀ s p, (E.JsGetProperty s r2.out p).status ≠ JsNoError

/-- The outcome of a protocol operation that stopped at a failed lookup: a non-success
status with a null text; the trace is what the engine did from the state of the host to
the final state, and it holds no call of the call-function primitive; the status is the
one that a lookup call of the trace (`JsGetPropertyIdFromName` or `JsGetProperty`)
reported. -/
def LookupFailure {σ V P : Type} (E : Engine σ V P) (host : ChakraHost σ V)
    (o : Outcome σ V P ChakraStringResult) : Prop :=
  o.value.ErrorCode ≠ JsNoError ∧ o.value.Result = none ∧
    Replays E host.engine o.trace o.state ∧
    (∀ e ∈ o.trace, e.isCallFunction = false) ∧
    ∃ e ∈ o.trace, e.isLookup = true ∧ e.status = o.value.ErrorCode

/-- String conversion and JSON parsing leave the observation `globals` of the engine state
as it was: they create values and write no global. -/
def ConversionKeepsGlobals {σ V P β : Type} (E : Engine σ V P) (globals : σ → β) : Prop :=
  (∀ s chars len, globals (E.JsPointerToString s chars len).state = globals s) ∧
    ∀ s v, globals (E.JsonParse s v).state = globals s

/-- The contract of an engine for the JSON transport.  `parseText` is the meaning of a JSON
text (`none` when the text is not valid JSON), `textOf` the content of an engine string,
`jsonOf` the structure of an engine value, `reserved` the names of the reserved globals.
Successful string conversion and parsing mean what they say; a global read after it was
set under a name that is not reserved gives a value of the same structure; stringify
gives a text that parses to the same structure; an engine string can be read back. -/
structure TransportContract {σ V P : Type} (E : Engine σ V P) (J : Type)
    (parseText : WideString → Option J) (textOf : σ → V → Option WideString)
    (jsonOf : σ → V → Option J) (reserved : WideString → Prop) : Prop where
  pointerToString : ∀ s chars len, (E.JsPointerToString s chars len).status = JsNoError →
    textOf (E.JsPointerToString s chars len).state (E.JsPointerToString s chars len).out
      = some (chars.take len)
  jsonParse : ∀ s v t, textOf s v = some t → (E.JsonParse s v).status = JsNoError →
    jsonOf (E.JsonParse s v).state (E.JsonParse s v).out = parseText t
  getAfterSet : ∀ s name v x, ¬ reserved name → jsonOf s v = some x →
    (E.SetGlobalVariable s name v).status = JsNoError →
    (E.GetGlobalVariable (E.SetGlobalVariable s name v).state name).status = JsNoError ∧
      jsonOf (E.GetGlobalVariable (E.SetGlobalVariable s name v).state name).state
        (E.GetGlobalVariable (E.SetGlobalVariable s name v).state name).out = some x
  jsonStringify : ∀ s v x, jsonOf s v = some x →
    (E.JsonStringify s v).status = JsNoError ∧
      ∃ t, textOf (E.JsonStringify s v).state (E.JsonStringify s v).out = some t ∧
        parseText t = some x
  stringToPointer : ∀ s v t, textOf s v = some t →
    (E.JsStringToPointer s v).status = JsNoError ∧
      (E.JsStringToPointer s v).out.1.take (E.JsStringToPointer s v).out.2 = t

/-! ## A small simulated engine

It stands in for the engine where a statement is evaluated on a concrete run.  Its values
are the values themselves, its property ids the property names.  It knows two JSON
documents, the empty array and the array of 1 and 2. -/

/-- The JSON structures the simulated engine knows. -/
inductive SimJson where
  | emptyArray
  | oneTwo
deriving DecidableEq, Repr

/-- The values of the simulated engine. -/
inductive SimVal where
  | undefined
  | global
  | number (n : Int)
  | string (t : WideString)
  | json (x : SimJson)
  | bridge
  | function (name : WideString)
deriving DecidableEq, Repr

/-- The state of the simulated engine: the properties of its global object, latest
binding first. -/
structure SimState where
  globals : List (WideString × SimVal)
deriving DecidableEq, Repr

/-- Non-success status of the simulated engine for an argument of the wrong sort. -/
def simInvalidArgument : JsErrorCode := 65537

/-- Non-success status of the simulated engine for a lookup on something that is not an
object. -/
def simArgumentNotObject : JsErrorCode := 65548

/-- Non-success status of the simulated engine for a script that throws. -/
def simScriptException : JsErrorCode := 196609

/-- The JSON texts the simulated engine parses. -/
def simParse (t : WideString) : Option SimJson :=
  if t = "[]".toList then some .emptyArray
  else if t = "[1,2]".toList then some .oneTwo
  else if t = "[1, 2]".toList then some .oneTwo
  else none

/-- The JSON text the simulated engine prints. -/
def simPrint : SimJson → WideString
  | .emptyArray => "[]".toList
  | .oneTwo => "[1,2]".toList

/-- The latest binding of a name among the globals, `undefined` when there is none. -/
def simLookup (name : WideString) : List (WideString × SimVal) → SimVal
  | [] => .undefined
  | (n, v) :: rest => if n = name then v else simLookup name rest

/-- The member names of the bridge object of the simulated engine. -/
def simBridgeMembers : List WideString :=
  ["callFunctionReturnFlushedQueue".toList, "invokeCallbackAndReturnFlushedQueue".toList,
    "flushedQueue".toList]

/-- The simulated engine; `initStatus` and `destroyStatus` are the statuses its `Init` and
`Destroy` report. -/
def simEngine (initStatus destroyStatus : JsErrorCode) : Engine SimState SimVal WideString where
  construct := ⟨.undefined, ⟨[]⟩⟩
  Init := fun h => (initStatus, ⟨.global, h.engine⟩)
  Destroy := fun _ => (destroyStatus, ⟨.undefined, ⟨[]⟩⟩)
  JsPointerToString := fun s chars len => ⟨JsNoError, .string (chars.take len), s⟩
  JsStringToPointer := fun s v =>
    match v with
    | .string t => ⟨JsNoError, (t, t.length), s⟩
    | _ => ⟨simInvalidArgument, ([], 0), s⟩
  JsonParse := fun s v =>
    match v with
    | .string t =>
        match simParse t with
        | some x => ⟨JsNoError, .json x, s⟩
        | none => ⟨simScriptException, .undefined, s⟩
    | _ => ⟨simInvalidArgument, .undefined, s⟩
  JsonStringify := fun s v =>
    match v with
    | .json x => ⟨JsNoError, .string (simPrint x), s⟩
    | _ => ⟨JsNoError, .undefined, s⟩
  SetGlobalVariable := fun s name v => ⟨JsNoError, (), ⟨(name, v) :: s.globals⟩⟩
  GetGlobalVariable := fun s name => ⟨JsNoError, simLookup name s.globals, s⟩
  RunScript := fun s _ _ => ⟨JsNoError, .undefined, s⟩
  SerializeScript := fun s _ _ => ⟨JsNoError, (), s⟩
  RunSerializedScript := fun s _ _ _ => ⟨JsNoError, .undefined, s⟩
  JsGetPropertyIdFromName := fun s name => ⟨JsNoError, name, s⟩
  JsGetProperty := fun s obj id =>
    match obj with
    | .global => ⟨JsNoError, simLookup id s.globals, s⟩
    | .bridge =>
        if id ∈ simBridgeMembers then ⟨JsNoError, .function id, s⟩
        else ⟨JsNoError, .undefined, s⟩
    | _ => ⟨simArgumentNotObject, .undefined, s⟩
  JsIntToNumber := fun s n => ⟨JsNoError, .number n, s⟩
  JsCallFunction := fun s f _ _ =>
    match f with
    | .function _ => ⟨JsNoError, .json .emptyArray, s⟩
    | _ => ⟨simInvalidArgument, .undefined, s⟩

/-- A host of the simulated engine whose global object holds the batched bridge. -/
def simHostWithBridge : ChakraHost SimState SimVal :=
  ⟨.global, ⟨[(BATCH_BRIDGE, .bridge)]⟩⟩

/-- A host of the simulated engine whose global object holds nothing. -/
def simHostEmpty : ChakraHost SimState SimVal :=
  ⟨.global, ⟨[]⟩⟩

/-- The content of a string of the simulated engine. -/
def simTextOf (_ : SimState) : SimVal → Option WideString
  | .string t => some t
  | _ => none

/-- The structure of a JSON value of the simulated engine. -/
def simJsonOf (_ : SimState) : SimVal → Option SimJson
  | .json x => some x
  | _ => none

/-- An executor before `InitializeHost`, with an empty heap. -/
def simUninitialized : NativeJavaScriptExecutor SimState SimVal :=
  { host := none, live := [], next := 0 }

/-- An executor of the simulated engine in the Ready state. -/
def simReady : NativeJavaScriptExecutor SimState SimVal :=
  { host := some (0, simHostWithBridge), live := [0], next := 1 }

end ChakraBridge

/-! # Theorems -/

namespace ChakraBridge

/-! ## The fail-fast policy -/

section FailFastLemmas

variable {σ V P : Type}

/-- A trace that passes the fail-fast check follows the step order, ends at its first call
that did not succeed, and returns the status of that call, or `JsNoError` after all
steps. -/
theorem failFast_sound (ks : List Kind) (t : List (Event V P)) (ret : JsErrorCode)
    (h : FailFast ks t ret) :
    t.map Event.kind <+: ks ∧
    ((∀ e ∈ t, e.status = JsNoError) → ret = JsNoError ∧ t.map Event.kind = ks) ∧
    (∀ pre e post, t = pre ++ e :: post → e.status ≠ JsNoError →
      post = [] ∧ (∀ x ∈ pre, x.status = JsNoError) ∧ ret = e.status) ∧
    (ks ≠ [] → ∃ e ∈ t, e.status = ret) := by
  induction ks generalizing t with
  | nil =>
    cases t with
    | nil =>
      simp only [FailFast] at h
      refine ⟨by simp, fun _ => ⟨h, rfl⟩, ?_, fun hne => absurd rfl hne⟩
      intro pre e post hp
      simp at hp
    | cons e es => simp [FailFast] at h
  | cons k ks ih =>
    cases t with
    | nil => simp [FailFast] at h
    | cons e es =>
      simp only [FailFast] at h
      obtain ⟨hk, hrest⟩ := h
      by_cases hs : e.status = JsNoError
      · rw [if_pos hs] at hrest
        obtain ⟨h1, h2, h3, h4⟩ := ih es hrest
        refine ⟨?_, ?_, ?_, ?_⟩
        · simpa [hk] using (List.prefix_cons_inj k).mpr h1
        · intro hall
          have hall2 : ∀ x ∈ es, x.status = JsNoError :=
            fun x hx => hall x (List.mem_cons_of_mem _ hx)
          obtain ⟨hr, hm⟩ := h2 hall2
          exact ⟨hr, by simp [hk, hm]⟩
        · intro pre x post hp hx
          cases pre with
          | nil =>
            simp only [List.nil_append, List.cons.injEq] at hp
            exact absurd (hp.1 ▸ hs) hx
          | cons y ys =>
            simp only [List.cons_append, List.cons.injEq] at hp
            obtain ⟨hpost, hpre, hret⟩ := h3 ys x post hp.2 hx
            refine ⟨hpost, ?_, hret⟩
            intro z hz
            rcases List.mem_cons.mp hz with hz | hz
            · rw [hz, ← hp.1]; exact hs
            · exact hpre z hz
        · intro _
          by_cases hks : ks = []
          · subst hks
            cases es with
            | nil =>
              simp only [FailFast] at hrest
              exact ⟨e, List.mem_cons_self _ _, by rw [hs, hrest]⟩
            | cons e2 es2 => simp [FailFast] at hrest
          · obtain ⟨x, hx, hxs⟩ := h4 hks
            exact ⟨x, List.mem_cons_of_mem _ hx, hxs⟩
      · rw [if_neg hs] at hrest
        obtain ⟨hnil, hret⟩ := hrest
        subst hnil
        refine ⟨?_, ?_, ?_, ?_⟩
        · simp [hk]
        · intro hall
          exact absurd (hall e (List.mem_cons_self _ _)) hs
        · intro pre x post hp _
          cases pre with
          | nil =>
            simp only [List.nil_append, List.cons.injEq] at hp
            refine ⟨hp.2.symm, by simp, ?_⟩
            rw [hret, hp.1]
          | cons y ys =>
            simp only [List.cons_append, List.cons.injEq] at hp
            have := hp.2
            simp at this
        · intro _
          exact ⟨e, List.mem_cons_self _ _, hret.symm⟩

/-- One `IfFailRet` step keeps the fail-fast check. -/
theorem failFast_IfFailRet {β : Type} (c : Step σ V P β)
    (rest : β → σ → Outcome σ V P JsErrorCode) (k : Kind) (ks : List Kind)
    (hk : c.event.kind = k) (hs : c.event.status = c.reply.status)
    (hrest : ∀ out s, FailFast ks (rest out s).trace (rest out s).value) :
    FailFast (k :: ks) (IfFailRet c rest).trace (IfFailRet c rest).value := by
  unfold IfFailRet
  by_cases h : c.reply.status = JsNoError
  · simp only [if_pos h, FailFast, hk, hs, true_and]
    exact hrest _ _
  · simp only [if_neg h, FailFast, hk, hs, true_and]

/-- One `IfFailRetNullPtr` step keeps the fail-fast check. -/
theorem failFast_IfFailRetNullPtr {β : Type} (c : Step σ V P β)
    (rest : β → σ → Outcome σ V P ChakraStringResult) (k : Kind) (ks : List Kind)
    (hk : c.event.kind = k) (hs : c.event.status = c.reply.status)
    (hrest : ∀ out s, FailFast ks (rest out s).trace (rest out s).value.ErrorCode) :
    FailFast (k :: ks) (IfFailRetNullPtr c rest).trace
      (IfFailRetNullPtr c rest).value.ErrorCode := by
  unfold IfFailRetNullPtr
  by_cases h : c.reply.status = JsNoError
  · simp only [if_pos h, FailFast, hk, hs, true_and]
    exact hrest _ _
  · simp only [if_neg h, FailFast, hk, hs, true_and]

/-- Every operation of the Ready state passes the fail-fast check against its step
order. -/
theorem failFast_run (E : Engine σ V P) (host : ChakraHost σ V) (op : Op) :
    FailFast op.steps (op.run E host).trace (op.run E host).value := by
  cases op <;>
    simp only [Op.run, Op.steps, Outcome.errorCode, SetGlobalVariable, GetGlobalVariable,
      RunScript, SerializeScript, RunSerializedScript, CallFunctionAndReturnFlushedQueue,
      InvokeCallbackAndReturnFlushedQueue, FlushedQueue] <;>
    repeat (first
      | exact rfl
      | (refine failFast_IfFailRet _ _ _ _ rfl rfl ?_; intro _ _)
      | (refine failFast_IfFailRetNullPtr _ _ _ _ rfl rfl ?_; intro _ _))

/-- When every recorded call of an `IfFailRetNullPtr` chain succeeded, its first call
succeeded and the chain went on with the rest. -/
theorem IfFailRetNullPtr_of_ok {β : Type} (c : Step σ V P β)
    (rest : β → σ → Outcome σ V P ChakraStringResult)
    (hs : c.event.status = c.reply.status)
    (hok : ∀ e ∈ (IfFailRetNullPtr c rest).trace, e.status = JsNoError) :
    c.reply.status = JsNoError ∧
      (IfFailRetNullPtr c rest).trace = c.event :: (rest c.reply.out c.reply.state).trace ∧
      (IfFailRetNullPtr c rest).value = (rest c.reply.out c.reply.state).value ∧
      (IfFailRetNullPtr c rest).state = (rest c.reply.out c.reply.state).state ∧
      ∀ e ∈ (rest c.reply.out c.reply.state).trace, e.status = JsNoError := by
  unfold IfFailRetNullPtr at hok ⊢
  by_cases h : c.reply.status = JsNoError
  · rw [if_pos h] at hok ⊢
    exact ⟨h, rfl, rfl, rfl, fun e he => hok e (List.mem_cons_of_mem _ he)⟩
  · rw [if_neg h] at hok
    exact absurd (hs ▸ hok c.event (List.mem_singleton.mpr rfl)) h

/-- When every recorded call of an `IfFailRet` chain succeeded, its first call succeeded
and the chain went on with the rest. -/
theorem IfFailRet_of_ok {β : Type} (c : Step σ V P β)
    (rest : β → σ → Outcome σ V P JsErrorCode)
    (hs : c.event.status = c.reply.status)
    (hok : ∀ e ∈ (IfFailRet c rest).trace, e.status = JsNoError) :
    c.reply.status = JsNoError ∧
      (IfFailRet c rest).trace = c.event :: (rest c.reply.out c.reply.state).trace ∧
      (IfFailRet c rest).value = (rest c.reply.out c.reply.state).value ∧
      (IfFailRet c rest).state = (rest c.reply.out c.reply.state).state ∧
      ∀ e ∈ (rest c.reply.out c.reply.state).trace, e.status = JsNoError := by
  unfold IfFailRet at hok ⊢
  by_cases h : c.reply.status = JsNoError
  · rw [if_pos h] at hok ⊢
    exact ⟨h, rfl, rfl, rfl, fun e he => hok e (List.mem_cons_of_mem _ he)⟩
  · rw [if_neg h] at hok
    exact absurd (hs ▸ hok c.event (List.mem_singleton.mpr rfl)) h

/-- One `IfFailRet` step keeps the trace in step with the engine. -/
theorem replays_IfFailRet {β : Type} (E : Engine σ V P) (s : σ) (c : Step σ V P β)
    (rest : β → σ → Outcome σ V P JsErrorCode)
    (he : (c.event.replay E s).1 = c.event) (hst : (c.event.replay E s).2 = c.reply.state)
    (hrest : ∀ out, Replays E c.reply.state (rest out c.reply.state).trace
      (rest out c.reply.state).state) :
    Replays E s (IfFailRet c rest).trace (IfFailRet c rest).state := by
  unfold IfFailRet
  by_cases h : c.reply.status = JsNoError
  · simp only [if_pos h, Replays, he, hst, true_and]
    exact hrest _
  · simp only [if_neg h, Replays, he, hst, true_and]

/-- One `IfFailRetNullPtr` step keeps the trace in step with the engine. -/
theorem replays_IfFailRetNullPtr {β : Type} (E : Engine σ V P) (s : σ) (c : Step σ V P β)
    (rest : β → σ → Outcome σ V P ChakraStringResult)
    (he : (c.event.replay E s).1 = c.event) (hst : (c.event.replay E s).2 = c.reply.state)
    (hrest : ∀ out, Replays E c.reply.state (rest out c.reply.state).trace
      (rest out c.reply.state).state) :
    Replays E s (IfFailRetNullPtr c rest).trace (IfFailRetNullPtr c rest).state := by
  unfold IfFailRetNullPtr
  by_cases h : c.reply.status = JsNoError
  · simp only [if_pos h, Replays, he, hst, true_and]
    exact hrest _
  · simp only [if_neg h, Replays, he, hst, true_and]

/-- Every operation of the Ready state leaves a trace that is what the engine did, from
the state of the host to the final state. -/
theorem replays_run (E : Engine σ V P) (host : ChakraHost σ V) (op : Op) :
    Replays E host.engine (op.run E host).trace (op.run E host).state := by
  cases op <;>
    simp only [Op.run, Outcome.errorCode, SetGlobalVariable, GetGlobalVariable,
      RunScript, SerializeScript, RunSerializedScript, CallFunctionAndReturnFlushedQueue,
      InvokeCallbackAndReturnFlushedQueue, FlushedQueue] <;>
    repeat (first
      | exact rfl
      | (refine replays_IfFailRet E _ _ _ rfl rfl ?_; intro _)
      | (refine replays_IfFailRetNullPtr E _ _ _ rfl rfl ?_; intro _))

end FailFastLemmas

/-! ## The call shape of the protocol operations -/

section Protocol

variable {σ V P : Type}

/-- C1. When every engine step succeeds, `CallFunctionAndReturnFlushedQueue` makes its
eleven engine calls in order, and the call-function primitive is called exactly once: on
the value found under `callFunctionReturnFlushedQueue` of the value found under
`__fbBatchedBridge` of the global object, with the four arguments global object, string
of `moduleName`, string of `methodName`, and the parse of the string of `args`.  The
trace is what the engine did: each entry is the answer of the engine to that call, in the
state the calls before it left, and the final state is the one the last call left. -/
theorem callFunction_call_shape (E : Engine σ V P) (host : ChakraHost σ V)
    (moduleName methodName args : WideString)
    (hok : ∀ e ∈ (CallFunctionAndReturnFlushedQueue E host moduleName methodName args).trace,
      e.status = JsNoError) :
    Replays E host.engine
      (CallFunctionAndReturnFlushedQueue E host moduleName methodName args).trace
      (CallFunctionAndReturnFlushedQueue E host moduleName methodName args).state ∧
    ∃ fbBridgeId fbBridgeObj methodId method moduleNameRef methodNameRef argObj jsonObj
        result stringifiedResult szBuf bufLen,
      (CallFunctionAndReturnFlushedQueue E host moduleName methodName args).trace =
        [ .JsGetPropertyIdFromName BATCH_BRIDGE JsNoError fbBridgeId,
          .JsGetProperty host.globalObject fbBridgeId JsNoError fbBridgeObj,
          .JsGetPropertyIdFromName "callFunctionReturnFlushedQueue".toList JsNoError methodId,
          .JsGetProperty fbBridgeObj methodId JsNoError method,
          .JsPointerToString moduleName moduleName.length JsNoError moduleNameRef,
          .JsPointerToString methodName methodName.length JsNoError methodNameRef,
          .JsPointerToString args args.length JsNoError argObj,
          .JsonParse argObj JsNoError jsonObj,
          .JsCallFunction method [host.globalObject, moduleNameRef, methodNameRef, jsonObj] 4
            JsNoError result,
          .JsonStringify result JsNoError stringifiedResult,
          .JsStringToPointer stringifiedResult JsNoError szBuf bufLen ] ∧
      (CallFunctionAndReturnFlushedQueue E host moduleName methodName args).trace.filter
          Event.isCallFunction =
        [ .JsCallFunction method [host.globalObject, moduleNameRef, methodNameRef, jsonObj] 4
            JsNoError result ] := by
  refine ⟨replays_run E host (.CallFunctionAndReturnFlushedQueue moduleName methodName args),
    ?_⟩
  unfold CallFunctionAndReturnFlushedQueue at hok ⊢
  obtain ⟨h1, t1, -, -, hok⟩ := IfFailRetNullPtr_of_ok _ _ rfl hok
  obtain ⟨h2, t2, -, -, hok⟩ := IfFailRetNullPtr_of_ok _ _ rfl hok
  obtain ⟨h3, t3, -, -, hok⟩ := IfFailRetNullPtr_of_ok _ _ rfl hok
  obtain ⟨h4, t4, -, -, hok⟩ := IfFailRetNullPtr_of_ok _ _ rfl hok
  obtain ⟨h5, t5, -, -, hok⟩ := IfFailRetNullPtr_of_ok _ _ rfl hok
  obtain ⟨h6, t6, -, -, hok⟩ := IfFailRetNullPtr_of_ok _ _ rfl hok
  obtain ⟨h7, t7, -, -, hok⟩ := IfFailRetNullPtr_of_ok _ _ rfl hok
  obtain ⟨h8, t8, -, -, hok⟩ := IfFailRetNullPtr_of_ok _ _ rfl hok
  obtain ⟨h9, t9, -, -, hok⟩ := IfFailRetNullPtr_of_ok _ _ rfl hok
  obtain ⟨h10, t10, -, -, hok⟩ := IfFailRetNullPtr_of_ok _ _ rfl hok
  obtain ⟨h11, t11, -, -, -⟩ := IfFailRetNullPtr_of_ok _ _ rfl hok
  rw [t1, t2, t3, t4, t5, t6, t7, t8, t9, t10, t11]
  simp only [callJsGetPropertyIdFromName, callJsGetProperty, callJsPointerToString,
    callJsonParse, callJsCallFunction, callJsonStringify, callJsStringToPointer, StringChars,
    StringLength] at h1 h2 h3 h4 h5 h6 h7 h8 h9 h10 h11 ⊢
  simp only [h1, h2, h3, h4, h5, h6, h7, h8, h9, h10, h11]
  exact ⟨_, _, _, _, _, _, _, _, _, _, _, _, rfl, rfl⟩

/-- C2. When every engine step succeeds, `InvokeCallbackAndReturnFlushedQueue` makes its
ten engine calls in order, and the call-function primitive is called exactly once: on the
value found under `invokeCallbackAndReturnFlushedQueue` of the value found under
`__fbBatchedBridge` of the global object, with the three arguments global object, number
of `callbackId`, and the parse of the string of `args`.  The trace is what the engine
did: each entry is the answer of the engine to that call, in the state the calls before
it left, and the final state is the one the last call left. -/
theorem invokeCallback_call_shape (E : Engine σ V P) (host : ChakraHost σ V)
    (callbackId : Int) (args : WideString)
    (hok : ∀ e ∈ (InvokeCallbackAndReturnFlushedQueue E host callbackId args).trace,
      e.status = JsNoError) :
    Replays E host.engine (InvokeCallbackAndReturnFlushedQueue E host callbackId args).trace
      (InvokeCallbackAndReturnFlushedQueue E host callbackId args).state ∧
    ∃ fbBridgeId fbBridgeObj methodId method callbackIdRef argsObj argsJson result
        stringifiedResult szBuf bufLen,
      (InvokeCallbackAndReturnFlushedQueue E host callbackId args).trace =
        [ .JsGetPropertyIdFromName BATCH_BRIDGE JsNoError fbBridgeId,
          .JsGetProperty host.globalObject fbBridgeId JsNoError fbBridgeObj,
          .JsGetPropertyIdFromName "invokeCallbackAndReturnFlushedQueue".toList JsNoError
            methodId,
          .JsGetProperty fbBridgeObj methodId JsNoError method,
          .JsIntToNumber callbackId JsNoError callbackIdRef,
          .JsPointerToString args args.length JsNoError argsObj,
          .JsonParse argsObj JsNoError argsJson,
          .JsCallFunction method [host.globalObject, callbackIdRef, argsJson] 3 JsNoError
            result,
          .JsonStringify result JsNoError stringifiedResult,
          .JsStringToPointer stringifiedResult JsNoError szBuf bufLen ] ∧
      (InvokeCallbackAndReturnFlushedQueue E host callbackId args).trace.filter
          Event.isCallFunction =
        [ .JsCallFunction method [host.globalObject, callbackIdRef, argsJson] 3 JsNoError
            result ] := by
  refine ⟨replays_run E host (.InvokeCallbackAndReturnFlushedQueue callbackId args), ?_⟩
  unfold InvokeCallbackAndReturnFlushedQueue at hok ⊢
  obtain ⟨h1, t1, -, -, hok⟩ := IfFailRetNullPtr_of_ok _ _ rfl hok
  obtain ⟨h2, t2, -, -, hok⟩ := IfFailRetNullPtr_of_ok _ _ rfl hok
  obtain ⟨h3, t3, -, -, hok⟩ := IfFailRetNullPtr_of_ok _ _ rfl hok
  obtain ⟨h4, t4, -, -, hok⟩ := IfFailRetNullPtr_of_ok _ _ rfl hok
  obtain ⟨h5, t5, -, -, hok⟩ := IfFailRetNullPtr_of_ok _ _ rfl hok
  obtain ⟨h6, t6, -, -, hok⟩ := IfFailRetNullPtr_of_ok _ _ rfl hok
  obtain ⟨h7, t7, -, -, hok⟩ := IfFailRetNullPtr_of_ok _ _ rfl hok
  obtain ⟨h8, t8, -, -, hok⟩ := IfFailRetNullPtr_of_ok _ _ rfl hok
  obtain ⟨h9, t9, -, -, hok⟩ := IfFailRetNullPtr_of_ok _ _ rfl hok
  obtain ⟨h10, t10, -, -, -⟩ := IfFailRetNullPtr_of_ok _ _ rfl hok
  rw [t1, t2, t3, t4, t5, t6, t7, t8, t9, t10]
  simp only [callJsGetPropertyIdFromName, callJsGetProperty, callJsPointerToString,
    callJsonParse, callJsCallFunction, callJsonStringify, callJsStringToPointer,
    callJsIntToNumber, StringChars, StringLength] at h1 h2 h3 h4 h5 h6 h7 h8 h9 h10 ⊢
  simp only [h1, h2, h3, h4, h5, h6, h7, h8, h9, h10]
  exact ⟨_, _, _, _, _, _, _, _, _, _, _, rfl, rfl⟩

/-- C10. When every engine step succeeds, `FlushedQueue` makes its seven engine calls in
order, the call-function primitive is called exactly once, on the value found under
`flushedQueue` of the value found under `__fbBatchedBridge` of the global object, with
the global object as its one argument.  The trace is what the engine did: each entry is
the answer of the engine to that call, in the state the calls before it left, and the
final state is the one the last call left.  The result is `JsNoError` with the text that
`CreateString` makes of the `szBuf` and `bufLen` which `JsStringToPointer` answered for
the stringified return value of that call: the text has each of the `bufLen` characters
at `szBuf` at its place, whatever the character, and it is `bufLen` characters long when
`szBuf` holds that many. -/
theorem flushedQueue_call_shape_and_result (E : Engine σ V P) (host : ChakraHost σ V)
    (hok : ∀ e ∈ (FlushedQueue E host).trace, e.status = JsNoError) :
    Replays E host.engine (FlushedQueue E host).trace (FlushedQueue E host).state ∧
    ∃ fbBridgeId fbBridgeObj methodId method result stringifiedResult szBuf bufLen,
      (FlushedQueue E host).trace =
        [ .JsGetPropertyIdFromName BATCH_BRIDGE JsNoError fbBridgeId,
          .JsGetProperty host.globalObject fbBridgeId JsNoError fbBridgeObj,
          .JsGetPropertyIdFromName "flushedQueue".toList JsNoError methodId,
          .JsGetProperty fbBridgeObj methodId JsNoError method,
          .JsCallFunction method [host.globalObject] 1 JsNoError result,
          .JsonStringify result JsNoError stringifiedResult,
          .JsStringToPointer stringifiedResult JsNoError szBuf bufLen ] ∧
      (FlushedQueue E host).trace.filter Event.isCallFunction =
        [ .JsCallFunction method [host.globalObject] 1 JsNoError result ] ∧
      (FlushedQueue E host).value = ⟨JsNoError, some (CreateString szBuf bufLen)⟩ ∧
      (∀ i, i < bufLen → (CreateString szBuf bufLen)[i]? = szBuf[i]?) ∧
      (bufLen ≤ szBuf.length → (CreateString szBuf bufLen).length = bufLen) := by
  refine ⟨replays_run E host .FlushedQueue, ?_⟩
  unfold FlushedQueue at hok ⊢
  obtain ⟨h1, t1, v1, -, hok⟩ := IfFailRetNullPtr_of_ok _ _ rfl hok
  obtain ⟨h2, t2, v2, -, hok⟩ := IfFailRetNullPtr_of_ok _ _ rfl hok
  obtain ⟨h3, t3, v3, -, hok⟩ := IfFailRetNullPtr_of_ok _ _ rfl hok
  obtain ⟨h4, t4, v4, -, hok⟩ := IfFailRetNullPtr_of_ok _ _ rfl hok
  obtain ⟨h5, t5, v5, -, hok⟩ := IfFailRetNullPtr_of_ok _ _ rfl hok
  obtain ⟨h6, t6, v6, -, hok⟩ := IfFailRetNullPtr_of_ok _ _ rfl hok
  obtain ⟨h7, t7, v7, -, -⟩ := IfFailRetNullPtr_of_ok _ _ rfl hok
  rw [t1, t2, t3, t4, t5, t6, t7, v1, v2, v3, v4, v5, v6, v7]
  simp only [callJsGetPropertyIdFromName, callJsGetProperty, callJsCallFunction,
    callJsonStringify, callJsStringToPointer] at h1 h2 h3 h4 h5 h6 h7 ⊢
  simp only [h1, h2, h3, h4, h5, h6, h7]
  exact ⟨_, _, _, _, _, _, _, _, rfl, rfl, rfl,
    fun _ hi => List.getElem?_take_of_lt hi, fun hle => List.length_take_of_le hle⟩

/-- The four lookup steps that open every protocol operation stop at a failed lookup when
the batched bridge is absent. -/
theorem lookupFailure_of_absent (E : Engine σ V P) (host : ChakraHost σ V)
    (member : WideString) (rest : V → σ → Outcome σ V P ChakraStringResult)
    (habs : BridgeAbsent E host) :
    LookupFailure E host
      (IfFailRetNullPtr (callJsGetPropertyIdFromName E host.engine BATCH_BRIDGE)
        fun fbBridgeId s1 =>
      IfFailRetNullPtr (callJsGetProperty E s1 host.globalObject fbBridgeId)
        fun fbBridgeObj s2 =>
      IfFailRetNullPtr (callJsGetPropertyIdFromName E s2 member) fun methodId s3 =>
      IfFailRetNullPtr (callJsGetProperty E s3 fbBridgeObj methodId) rest) := by
  simp only [BridgeAbsent] at habs
  simp only [IfFailRetNullPtr, callJsGetPropertyIdFromName, callJsGetProperty]
  split_ifs with h1 h2 h3 h4
  · rcases habs with habs | habs
    · exact absurd h2 habs
    · exact absurd h4 (habs _ _)
  · exact ⟨h4, rfl, ⟨rfl, rfl, rfl, rfl, rfl⟩, by simp [Event.isCallFunction, Event.kind],
      ⟨_, List.mem_cons_of_mem _ (List.mem_cons_of_mem _ (List.mem_cons_of_mem _
        (List.mem_singleton.mpr rfl))), rfl, rfl⟩⟩
  · exact ⟨h3, rfl, ⟨rfl, rfl, rfl, rfl⟩, by simp [Event.isCallFunction, Event.kind],
      ⟨_, List.mem_cons_of_mem _ (List.mem_cons_of_mem _ (List.mem_singleton.mpr rfl)),
        rfl, rfl⟩⟩
  · exact ⟨h2, rfl, ⟨rfl, rfl, rfl⟩, by simp [Event.isCallFunction, Event.kind],
      ⟨_, List.mem_cons_of_mem _ (List.mem_singleton.mpr rfl), rfl, rfl⟩⟩
  · exact ⟨h1, rfl, ⟨rfl, rfl⟩, by simp [Event.isCallFunction, Event.kind],
      ⟨_, List.mem_singleton.mpr rfl, rfl, rfl⟩⟩

/-- C3. When the batched bridge object is absent from the global object, each of the
three protocol operations returns a non-success status reported by a lookup call, with a
null text, and never calls the call-function primitive: its trace is what the engine did,
from the state of the host to the final state, and holds no such call. -/
theorem protocol_bridge_absent (E : Engine σ V P) (host : ChakraHost σ V)
    (habs : BridgeAbsent E host) (moduleName methodName args : WideString)
    (callbackId : Int) :
    LookupFailure E host
      (CallFunctionAndReturnFlushedQueue E host moduleName methodName args) ∧
    LookupFailure E host (InvokeCallbackAndReturnFlushedQueue E host callbackId args) ∧
    LookupFailure E host (FlushedQueue E host) :=
  ⟨lookupFailure_of_absent E host _ _ habs, lookupFailure_of_absent E host _ _ habs,
    lookupFailure_of_absent E host _ _ habs⟩

end Protocol

/-! ## Results and statuses -/

section Results

variable {σ V P : Type}

/-- One `IfFailRetNullPtr` step keeps the link between text and status. -/
theorem result_iff_IfFailRetNullPtr {β : Type} (c : Step σ V P β)
    (rest : β → σ → Outcome σ V P ChakraStringResult)
    (hrest : ∀ out s, ((rest out s).value.Result ≠ none ↔
      (rest out s).value.ErrorCode = JsNoError)) :
    ((IfFailRetNullPtr c rest).value.Result ≠ none ↔
      (IfFailRetNullPtr c rest).value.ErrorCode = JsNoError) := by
  unfold IfFailRetNullPtr
  by_cases h : c.reply.status = JsNoError
  · simp only [if_pos h]
    exact hrest _ _
  · simp only [if_neg h]
    simp [h]

/-- C4. Each of the four operations that return data gives, for every input and every
engine, a result whose text is not null if and only if its status is `JsNoError`. -/
theorem result_present_iff_success (E : Engine σ V P) (host : ChakraHost σ V)
    (variableName moduleName methodName args : WideString) (callbackId : Int) :
    ((GetGlobalVariable E host variableName).value.Result ≠ none ↔
      (GetGlobalVariable E host variableName).value.ErrorCode = JsNoError) ∧
    ((CallFunctionAndReturnFlushedQueue E host moduleName methodName args).value.Result
        ≠ none ↔
      (CallFunctionAndReturnFlushedQueue E host moduleName methodName args).value.ErrorCode
        = JsNoError) ∧
    ((InvokeCallbackAndReturnFlushedQueue E host callbackId args).value.Result ≠ none ↔
      (InvokeCallbackAndReturnFlushedQueue E host callbackId args).value.ErrorCode
        = JsNoError) ∧
    ((FlushedQueue E host).value.Result ≠ none ↔
      (FlushedQueue E host).value.ErrorCode = JsNoError) := by
  refine ⟨?_, ?_, ?_, ?_⟩ <;>
    simp only [GetGlobalVariable, CallFunctionAndReturnFlushedQueue,
      InvokeCallbackAndReturnFlushedQueue, FlushedQueue] <;>
    repeat (first
      | (refine result_iff_IfFailRetNullPtr _ _ ?_; intro _ _)
      | simp)

/-- C5. Every operation of the Ready state, on every engine: its trace is what the engine
did, each entry the answer of the engine to that call in the state the calls before it
left, with the final state the one the last call left; its engine calls follow its step
order; when all of them succeed every step was made and the status returned is
`JsNoError`; a call that did not succeed is the last call made, all calls before it
succeeded, and its status is the one returned; the status returned is one an engine call
reported. -/
theorem status_is_first_failure (E : Engine σ V P) (host : ChakraHost σ V) (op : Op) :
    Replays E host.engine (op.run E host).trace (op.run E host).state ∧
    (op.run E host).trace.map Event.kind <+: op.steps ∧
    ((∀ e ∈ (op.run E host).trace, e.status = JsNoError) →
      (op.run E host).value = JsNoError ∧
        (op.run E host).trace.map Event.kind = op.steps) ∧
    (∀ pre e post, (op.run E host).trace = pre ++ e :: post → e.status ≠ JsNoError →
      post = [] ∧ (∀ x ∈ pre, x.status = JsNoError) ∧ (op.run E host).value = e.status) ∧
    (∃ e ∈ (op.run E host).trace, e.status = (op.run E host).value) := by
  have h := failFast_sound _ _ _ (failFast_run E host op)
  exact ⟨replays_run E host op, h.1, h.2.1, h.2.2.1,
    h.2.2.2 (by cases op <;> simp [Op.steps])⟩

/-- C6. `SetGlobalVariable` and the globals of the engine.  Its trace is what the engine
did, from the state of the host to the final state.  When the string conversion or the
JSON parse does not succeed, the status returned is not `JsNoError`, the set-global
operation is not called, and an observation of the engine state that conversion and
parsing keep (the globals) is what it was.  When the status returned is `JsNoError`, the
set-global operation was called exactly once, with the name and the value that the JSON
parse gave for the text; the engine answered that call with `JsNoError`, and the final
state is the state that call left. -/
theorem setGlobalVariable_atomic (E : Engine σ V P) (host : ChakraHost σ V)
    (variableName stringifiedText : WideString) :
    Replays E host.engine (SetGlobalVariable E host variableName stringifiedText).trace
      (SetGlobalVariable E host variableName stringifiedText).state ∧
    (((E.JsPointerToString host.engine stringifiedText stringifiedText.length).status
          ≠ JsNoError ∨
        (E.JsonParse
          (E.JsPointerToString host.engine stringifiedText stringifiedText.length).state
          (E.JsPointerToString host.engine stringifiedText stringifiedText.length).out).status
          ≠ JsNoError) →
      (SetGlobalVariable E host variableName stringifiedText).value ≠ JsNoError ∧
      (∀ e ∈ (SetGlobalVariable E host variableName stringifiedText).trace,
        e.isSetGlobalVariable = false) ∧
      ∀ (β : Type) (globals : σ → β), ConversionKeepsGlobals E globals →
        globals (SetGlobalVariable E host variableName stringifiedText).state
          = globals host.engine) ∧
    ((SetGlobalVariable E host variableName stringifiedText).value = JsNoError →
      (SetGlobalVariable E host variableName stringifiedText).trace.filter
          Event.isSetGlobalVariable =
        [ .SetGlobalVariable variableName
            (E.JsonParse
              (E.JsPointerToString host.engine stringifiedText stringifiedText.length).state
              (E.JsPointerToString host.engine stringifiedText
                stringifiedText.length).out).out
            JsNoError ] ∧
      (E.SetGlobalVariable
        (E.JsonParse
          (E.JsPointerToString host.engine stringifiedText stringifiedText.length).state
          (E.JsPointerToString host.engine stringifiedText stringifiedText.length).out).state
        variableName
        (E.JsonParse
          (E.JsPointerToString host.engine stringifiedText stringifiedText.length).state
          (E.JsPointerToString host.engine stringifiedText stringifiedText.length).out).out
        ).status = JsNoError ∧
      (SetGlobalVariable E host variableName stringifiedText).state =
        (E.SetGlobalVariable
          (E.JsonParse
            (E.JsPointerToString host.engine stringifiedText stringifiedText.length).state
            (E.JsPointerToString host.engine stringifiedText stringifiedText.length).out).state
          variableName
          (E.JsonParse
            (E.JsPointerToString host.engine stringifiedText stringifiedText.length).state
            (E.JsPointerToString host.engine stringifiedText stringifiedText.length).out).out
          ).state) := by
  refine ⟨replays_run E host (.SetGlobalVariable variableName stringifiedText), ?_⟩
  simp only [SetGlobalVariable, IfFailRet, callJsPointerToString, callJsonParse,
    callSetGlobalVariable, StringChars, StringLength]
  split_ifs with h1 h2 h3
  · refine ⟨fun h => ?_, fun _ => ?_⟩
    · rcases h with h | h
      · exact absurd h1 h
      · exact absurd h2 h
    · simp only [h3]
      exact ⟨rfl, trivial, trivial⟩
  · refine ⟨fun h => ?_, fun h => absurd h h3⟩
    rcases h with h | h
    · exact absurd h1 h
    · exact absurd h2 h
  · refine ⟨fun _ => ⟨h2, by simp [Event.isSetGlobalVariable, Event.kind], ?_⟩,
      fun h => absurd h h2⟩
    intro β globals hg
    rw [hg.2, hg.1]
  · refine ⟨fun _ => ⟨h1, by simp [Event.isSetGlobalVariable, Event.kind], ?_⟩,
      fun h => absurd h h1⟩
    intro β globals hg
    rw [hg.1]

end Results

/-! ## Lifecycle -/

section Lifecycle

variable {σ V P : Type}

/-- C7, as amended. When `Init` reports a non-success status, `InitializeHost` returns
that status and the executor holds the handle of the newly constructed host, which is
still live: it is not Uninitialized. -/
theorem initializeHost_failure_keeps_handle (E : Engine σ V P)
    (this : NativeJavaScriptExecutor σ V)
    (hfail : (E.Init E.construct).1 ≠ JsNoError) :
    (InitializeHost E this).1 = (E.Init E.construct).1 ∧
    (InitializeHost E this).1 ≠ JsNoError ∧
    (InitializeHost E this).2.host = some (this.next, (E.Init E.construct).2) ∧
    this.next ∈ (InitializeHost E this).2.live ∧
    ¬ (InitializeHost E this).2.Uninitialized := by
  refine ⟨rfl, hfail, rfl, ?_, ?_⟩
  · simp [InitializeHost]
  · simp [InitializeHost, NativeJavaScriptExecutor.Uninitialized]

/-- C8. From the Ready state, `DisposeHost` returns the status that `Destroy` reported,
whatever it is, and leaves the executor Uninitialized with the host object deleted; a
following `InitializeHost` stores the handle of a newly constructed host, of an identity
that was not in use before. -/
theorem disposeHost_releases_then_initializeHost_fresh (E : Engine σ V P)
    (this : NativeJavaScriptExecutor σ V) (hready : this.Ready) :
    ∃ a h after, this.host = some (a, h) ∧
      DisposeHost E this = some ((E.Destroy h).1, after) ∧
      after.Uninitialized ∧ a ∉ after.live ∧
      ∃ b, (InitializeHost E after).2.host = some (b, (E.Init E.construct).2) ∧
        b ≠ a ∧ b ∉ this.live ∧ b ∉ after.live ∧ b ∈ (InitializeHost E after).2.live := by
  obtain ⟨⟨a, h, hhost, ha⟩, hlt⟩ := hready
  refine ⟨a, h, ⟨none, this.live.filter (fun b => b != a), this.next⟩, hhost, ?_, rfl, ?_,
    this.next, rfl, ?_, ?_, ?_, ?_⟩
  · simp [DisposeHost, hhost]
  · simp [List.mem_filter]
  · exact fun hb => absurd (hb ▸ hlt a ha) (lt_irrefl _)
  · exact fun hb => absurd (hlt _ hb) (lt_irrefl _)
  · exact fun hb => absurd (hlt _ (List.mem_filter.mp hb).1) (lt_irrefl _)
  · simp [InitializeHost]

end Lifecycle

/-! ## The JSON transport of globals -/

section Transport

variable {σ V P : Type}

/-- C9. On an engine that keeps the transport contract, for a valid JSON text `j` and a
name that is not reserved, a successful `SetGlobalVariable name j` followed by
`GetGlobalVariable name` returns `JsNoError` with a text that parses to the structure
that `j` parses to. -/
theorem set_then_get_round_trip (E : Engine σ V P) (J : Type)
    (parseText : WideString → Option J) (textOf : σ → V → Option WideString)
    (jsonOf : σ → V → Option J) (reserved : WideString → Prop)
    (contract : TransportContract E J parseText textOf jsonOf reserved)
    (host : ChakraHost σ V) (name j : WideString) (x : J)
    (hvalid : parseText j = some x) (hname : ¬ reserved name)
    (hset : (SetGlobalVariable E host name j).value = JsNoError) :
    (GetGlobalVariable E ⟨host.globalObject, (SetGlobalVariable E host name j).state⟩
        name).value.ErrorCode = JsNoError ∧
    ∃ text,
      (GetGlobalVariable E ⟨host.globalObject, (SetGlobalVariable E host name j).state⟩
        name).value.Result = some text ∧
      parseText text = some x := by
  simp only [SetGlobalVariable, IfFailRet, callJsPointerToString, callJsonParse,
    callSetGlobalVariable, StringChars, StringLength] at hset ⊢
  split_ifs at hset ⊢ with h1 h2 h3
  · have c1 := contract.pointerToString _ _ _ h1
    rw [List.take_length] at c1
    have c2 := contract.jsonParse _ _ _ c1 h2
    rw [hvalid] at c2
    obtain ⟨g1, g2⟩ := contract.getAfterSet _ name _ x hname c2 h3
    obtain ⟨f1, t, f2, f3⟩ := contract.jsonStringify _ _ x g2
    obtain ⟨p1, p2⟩ := contract.stringToPointer _ _ t f2
    simp only [GetGlobalVariable, IfFailRetNullPtr, callGetGlobalVariable, callJsonStringify,
      callJsStringToPointer, StringChars, CreateString, if_pos g1, if_pos f1, if_pos p1]
    exact ⟨trivial, t, by rw [p2], f3⟩
  · exact absurd hset h3
  · exact absurd hset h2
  · exact absurd hset h1

end Transport

/-! ## The statements on the simulated engine -/

/-- String conversion and JSON parsing of the simulated engine write no global. -/
theorem simEngine_keeps_globals (i d : JsErrorCode) :
    ConversionKeepsGlobals (simEngine i d) SimState.globals := by
  refine ⟨fun s chars len => rfl, fun s v => ?_⟩
  cases v <;> try rfl
  simp only [simEngine]
  split <;> rfl

/-- The simulated engine keeps the transport contract, with `__fbBatchedBridge` as its
reserved name. -/
theorem simEngine_contract (i d : JsErrorCode) :
    TransportContract (simEngine i d) SimJson simParse simTextOf simJsonOf
      (fun name => name = BATCH_BRIDGE) where
  pointerToString := fun s chars len _ => rfl
  jsonParse := by
    intro s v t ht hs
    cases v <;> simp [simTextOf] at ht
    subst ht
    simp only [simEngine] at hs ⊢
    split at hs
    · rename_i x hx
      simp only [hx, simJsonOf]
    · simp [simScriptException, JsNoError] at hs
  getAfterSet := by
    intro s name v x _ hv _
    refine ⟨rfl, ?_⟩
    simp only [simEngine, simLookup, if_true]
    exact hv
  jsonStringify := by
    intro s v x hv
    cases v <;> simp [simJsonOf] at hv
    subst hv
    refine ⟨rfl, simPrint _, rfl, ?_⟩
    rename_i y
    cases y <;> decide
  stringToPointer := by
    intro s v t ht
    cases v <;> simp [simTextOf] at ht
    subst ht
    exact ⟨rfl, List.take_length _⟩

/-- C1 on the simulated engine: `CallFunctionAndReturnFlushedQueue("Mod", "method",
"[1,2]")` succeeds at every step and calls the bridge function once with the four
arguments global, "Mod", "method" and the array of 1 and 2. -/
theorem callFunction_call_shape_witness :
    (∀ e ∈ (CallFunctionAndReturnFlushedQueue (simEngine 0 0) simHostWithBridge
        "Mod".toList "method".toList "[1,2]".toList).trace, e.status = JsNoError) ∧
    Replays (simEngine 0 0) simHostWithBridge.engine
      (CallFunctionAndReturnFlushedQueue (simEngine 0 0) simHostWithBridge
        "Mod".toList "method".toList "[1,2]".toList).trace
      (CallFunctionAndReturnFlushedQueue (simEngine 0 0) simHostWithBridge
        "Mod".toList "method".toList "[1,2]".toList).state ∧
    (∃ method moduleNameRef methodNameRef jsonObj result,
      (CallFunctionAndReturnFlushedQueue (simEngine 0 0) simHostWithBridge
        "Mod".toList "method".toList "[1,2]".toList).trace.filter Event.isCallFunction =
      [ .JsCallFunction method [.global, moduleNameRef, methodNameRef, jsonObj] 4
          JsNoError result ]) ∧
    (CallFunctionAndReturnFlushedQueue (simEngine 0 0) simHostWithBridge
        "Mod".toList "method".toList "[1,2]".toList).trace.filter Event.isCallFunction =
      [ .JsCallFunction (.function "callFunctionReturnFlushedQueue".toList)
          [.global, .string "Mod".toList, .string "method".toList, .json .oneTwo] 4
          JsNoError (.json .emptyArray) ] := by
  obtain ⟨hr, _, _, _, m, a, b, _, c, r, _, _, _, _, hf⟩ :=
    callFunction_call_shape (simEngine 0 0) simHostWithBridge
      "Mod".toList "method".toList "[1,2]".toList (by decide)
  exact ⟨by decide, hr, ⟨m, a, b, c, r, hf⟩, by decide⟩

/-- C2 on the simulated engine: `InvokeCallbackAndReturnFlushedQueue(7, "[]")` succeeds at
every step and calls the bridge function once with the three arguments global, 7 and the
empty array. -/
theorem invokeCallback_call_shape_witness :
    (∀ e ∈ (InvokeCallbackAndReturnFlushedQueue (simEngine 0 0) simHostWithBridge 7
        "[]".toList).trace, e.status = JsNoError) ∧
    Replays (simEngine 0 0) simHostWithBridge.engine
      (InvokeCallbackAndReturnFlushedQueue (simEngine 0 0) simHostWithBridge 7
        "[]".toList).trace
      (InvokeCallbackAndReturnFlushedQueue (simEngine 0 0) simHostWithBridge 7
        "[]".toList).state ∧
    (∃ method callbackIdRef argsJson result,
      (InvokeCallbackAndReturnFlushedQueue (simEngine 0 0) simHostWithBridge 7
        "[]".toList).trace.filter Event.isCallFunction =
      [ .JsCallFunction method [.global, callbackIdRef, argsJson] 3 JsNoError result ]) ∧
    (InvokeCallbackAndReturnFlushedQueue (simEngine 0 0) simHostWithBridge 7
        "[]".toList).trace.filter Event.isCallFunction =
      [ .JsCallFunction (.function "invokeCallbackAndReturnFlushedQueue".toList)
          [.global, .number 7, .json .emptyArray] 3 JsNoError (.json .emptyArray) ] := by
  obtain ⟨hr, _, _, _, m, a, _, b, r, _, _, _, _, hf⟩ :=
    invokeCallback_call_shape (simEngine 0 0) simHostWithBridge 7 "[]".toList (by decide)
  exact ⟨by decide, hr, ⟨m, a, b, r, hf⟩, by decide⟩

/-- C10 on the simulated engine: `FlushedQueue` succeeds at every step, calls the bridge
function once with the global object, and returns the text of the empty array. -/
theorem flushedQueue_call_shape_and_result_witness :
    (∀ e ∈ (FlushedQueue (simEngine 0 0) simHostWithBridge).trace, e.status = JsNoError) ∧
    Replays (simEngine 0 0) simHostWithBridge.engine
      (FlushedQueue (simEngine 0 0) simHostWithBridge).trace
      (FlushedQueue (simEngine 0 0) simHostWithBridge).state ∧
    (∃ method result, ∃ (szBuf : WideString) (bufLen : Nat),
      (FlushedQueue (simEngine 0 0) simHostWithBridge).trace.filter Event.isCallFunction =
        [ .JsCallFunction method [.global] 1 JsNoError result ] ∧
      (FlushedQueue (simEngine 0 0) simHostWithBridge).value =
        ⟨JsNoError, some (CreateString szBuf bufLen)⟩ ∧
      ∀ i, i < bufLen → (CreateString szBuf bufLen)[i]? = szBuf[i]?) ∧
    (FlushedQueue (simEngine 0 0) simHostWithBridge).value = ⟨JsNoError, some "[]".toList⟩ := by
  obtain ⟨hr, _, _, _, m, r, _, buf, len, _, hf, hv, hc, _⟩ :=
    flushedQueue_call_shape_and_result (simEngine 0 0) simHostWithBridge (by decide)
  exact ⟨by decide, hr, ⟨m, r, buf, len, hf, hv, hc⟩, by decide⟩

/-- The batched bridge is absent from the empty host of the simulated engine: the lookup
answers `undefined`, on which no member can be looked up. -/
theorem simHostEmpty_bridgeAbsent : BridgeAbsent (simEngine 0 0) simHostEmpty :=
  Or.inr (fun _ _ => show simArgumentNotObject ≠ JsNoError by decide)

/-- C3 on the simulated engine with an empty global object: the three protocol operations
stop at a failed lookup. -/
theorem protocol_bridge_absent_witness :
    BridgeAbsent (simEngine 0 0) simHostEmpty ∧
    LookupFailure (simEngine 0 0) simHostEmpty
      (CallFunctionAndReturnFlushedQueue (simEngine 0 0) simHostEmpty
        "Mod".toList "method".toList "[1,2]".toList) ∧
    LookupFailure (simEngine 0 0) simHostEmpty
      (InvokeCallbackAndReturnFlushedQueue (simEngine 0 0) simHostEmpty 7 "[]".toList) ∧
    LookupFailure (simEngine 0 0) simHostEmpty (FlushedQueue (simEngine 0 0) simHostEmpty) ∧
    (FlushedQueue (simEngine 0 0) simHostEmpty).value = ⟨simArgumentNotObject, none⟩ :=
  ⟨simHostEmpty_bridgeAbsent,
    (protocol_bridge_absent (simEngine 0 0) simHostEmpty simHostEmpty_bridgeAbsent
      "Mod".toList "method".toList "[1,2]".toList 7).1,
    (protocol_bridge_absent (simEngine 0 0) simHostEmpty simHostEmpty_bridgeAbsent
      "Mod".toList "method".toList "[]".toList 7).2.1,
    (protocol_bridge_absent (simEngine 0 0) simHostEmpty simHostEmpty_bridgeAbsent
      "Mod".toList "method".toList "[1,2]".toList 7).2.2, by decide⟩

/-- C4 on the simulated engine: a failed `GetGlobalVariable` has a null text, and the
result of `FlushedQueue` links text and status. -/
theorem result_present_iff_success_witness :
    (GetGlobalVariable (simEngine 0 0) simHostEmpty "x".toList).value = ⟨simInvalidArgument, none⟩ ∧
    (((FlushedQueue (simEngine 0 0) simHostWithBridge).value.Result ≠ none ↔
      (FlushedQueue (simEngine 0 0) simHostWithBridge).value.ErrorCode = JsNoError)) :=
  ⟨by decide,
    (result_present_iff_success (simEngine 0 0) simHostWithBridge "x".toList "Mod".toList
      "method".toList "[1,2]".toList 7).2.2.2⟩

/-- C5 on the simulated engine: `SetGlobalVariable` with a text that is not JSON stops at
the parse, after two calls, and returns the status of the parse. -/
theorem status_is_first_failure_witness :
    (Op.run (simEngine 0 0) simHostEmpty (.SetGlobalVariable "x".toList "[1,".toList)).value
      = simScriptException ∧
    ((Op.run (simEngine 0 0) simHostEmpty
        (.SetGlobalVariable "x".toList "[1,".toList)).trace.map Event.kind
      = [.JsPointerToString, .JsonParse]) ∧
    Replays (simEngine 0 0) simHostEmpty.engine
      (Op.run (simEngine 0 0) simHostEmpty
        (.SetGlobalVariable "x".toList "[1,".toList)).trace
      (Op.run (simEngine 0 0) simHostEmpty
        (.SetGlobalVariable "x".toList "[1,".toList)).state ∧
    ∃ e ∈ (Op.run (simEngine 0 0) simHostEmpty
        (.SetGlobalVariable "x".toList "[1,".toList)).trace,
      e.status = (Op.run (simEngine 0 0) simHostEmpty
        (.SetGlobalVariable "x".toList "[1,".toList)).value :=
  ⟨by decide, by decide,
    (status_is_first_failure (simEngine 0 0) simHostEmpty
      (.SetGlobalVariable "x".toList "[1,".toList)).1,
    (status_is_first_failure (simEngine 0 0) simHostEmpty
      (.SetGlobalVariable "x".toList "[1,".toList)).2.2.2.2⟩

/-- C6 on the simulated engine: with a text that is not JSON the globals stay as they
were; with a JSON text the set-global operation is called once with the parsed value. -/
theorem setGlobalVariable_atomic_witness :
    ((simEngine 0 0).JsonParse
        ((simEngine 0 0).JsPointerToString simHostEmpty.engine "[1,".toList 3).state
        ((simEngine 0 0).JsPointerToString simHostEmpty.engine "[1,".toList 3).out).status
      ≠ JsNoError ∧
    (SetGlobalVariable (simEngine 0 0) simHostEmpty "x".toList "[1,".toList).value
      ≠ JsNoError ∧
    (SetGlobalVariable (simEngine 0 0) simHostEmpty "x".toList "[1,".toList).state.globals
      = simHostEmpty.engine.globals ∧
    (SetGlobalVariable (simEngine 0 0) simHostEmpty "x".toList "[1, 2]".toList).trace.filter
        Event.isSetGlobalVariable
      = [ .SetGlobalVariable "x".toList (.json .oneTwo) JsNoError ] ∧
    (SetGlobalVariable (simEngine 0 0) simHostEmpty "x".toList "[1, 2]".toList).state
      = ⟨[("x".toList, .json .oneTwo)]⟩ ∧
    Replays (simEngine 0 0) simHostEmpty.engine
      (SetGlobalVariable (simEngine 0 0) simHostEmpty "x".toList "[1, 2]".toList).trace
      (SetGlobalVariable (simEngine 0 0) simHostEmpty "x".toList "[1, 2]".toList).state :=
  ⟨by decide,
    ((setGlobalVariable_atomic (simEngine 0 0) simHostEmpty "x".toList "[1,".toList).2.1
      (Or.inr (by decide))).1,
    ((setGlobalVariable_atomic (simEngine 0 0) simHostEmpty "x".toList "[1,".toList).2.1
      (Or.inr (by decide))).2.2 _ SimState.globals (simEngine_keeps_globals 0 0),
    ((setGlobalVariable_atomic (simEngine 0 0) simHostEmpty "x".toList "[1, 2]".toList).2.2
      (by decide)).1,
    ((setGlobalVariable_atomic (simEngine 0 0) simHostEmpty "x".toList "[1, 2]".toList).2.2
      (by decide)).2.2,
    (setGlobalVariable_atomic (simEngine 0 0) simHostEmpty "x".toList "[1, 2]".toList).1⟩

/-- C7 as stated fails: on a simulated engine whose `Init` reports a non-success status,
`InitializeHost` from the Uninitialized state returns that status and leaves the executor
holding a host handle. -/
theorem initializeHost_failure_counterexample :
    simUninitialized.Uninitialized ∧
    ((simEngine simInvalidArgument 0).Init (simEngine simInvalidArgument 0).construct).1
      ≠ JsNoError ∧
    (InitializeHost (simEngine simInvalidArgument 0) simUninitialized).1
      = simInvalidArgument ∧
    ¬ (InitializeHost (simEngine simInvalidArgument 0) simUninitialized).2.Uninitialized ∧
    (InitializeHost (simEngine simInvalidArgument 0) simUninitialized).2.host
      = some (0, ⟨.global, ⟨[]⟩⟩) := by
  refine ⟨rfl, by decide, rfl, ?_, rfl⟩
  simp [NativeJavaScriptExecutor.Uninitialized, InitializeHost]

/-- C7, as amended, on a simulated engine whose `Init` reports a non-success status. -/
theorem initializeHost_failure_keeps_handle_witness :
    ((simEngine simInvalidArgument 0).Init (simEngine simInvalidArgument 0).construct).1
      ≠ JsNoError ∧
    (InitializeHost (simEngine simInvalidArgument 0) simUninitialized).1
      = simInvalidArgument ∧
    (InitializeHost (simEngine simInvalidArgument 0) simUninitialized).2.host
      = some (0, ⟨.global, ⟨[]⟩⟩) :=
  ⟨by decide,
    (initializeHost_failure_keeps_handle (simEngine simInvalidArgument 0) simUninitialized
      (by decide)).1,
    (initializeHost_failure_keeps_handle (simEngine simInvalidArgument 0) simUninitialized
      (by decide)).2.2.1⟩

/-- The Ready executor of the simulated engine is Ready. -/
theorem simReady_ready : simReady.Ready :=
  ⟨⟨0, simHostWithBridge, rfl, by simp [simReady]⟩, by simp [simReady]⟩

/-- C8 on a simulated engine whose `Destroy` reports a non-success status. -/
theorem disposeHost_releases_then_initializeHost_fresh_witness :
    simReady.Ready ∧
    ∃ a h after, simReady.host = some (a, h) ∧
      DisposeHost (simEngine 0 simInvalidArgument) simReady
        = some (((simEngine 0 simInvalidArgument).Destroy h).1, after) ∧
      after.Uninitialized ∧ a ∉ after.live ∧
      ∃ b, (InitializeHost (simEngine 0 simInvalidArgument) after).2.host
          = some (b, ((simEngine 0 simInvalidArgument).Init
              (simEngine 0 simInvalidArgument).construct).2) ∧
        b ≠ a ∧ b ∉ simReady.live ∧ b ∉ after.live ∧
        b ∈ (InitializeHost (simEngine 0 simInvalidArgument) after).2.live :=
  ⟨simReady_ready,
    disposeHost_releases_then_initializeHost_fresh (simEngine 0 simInvalidArgument) simReady
      simReady_ready⟩

/-- C9 on the simulated engine: setting `x` to the text `[1, 2]` and reading it back gives
a text that parses to the array of 1 and 2. -/
theorem set_then_get_round_trip_witness :
    simParse "[1, 2]".toList = some .oneTwo ∧
    (SetGlobalVariable (simEngine 0 0) simHostEmpty "x".toList "[1, 2]".toList).value
      = JsNoError ∧
    ((GetGlobalVariable (simEngine 0 0)
        ⟨simHostEmpty.globalObject,
          (SetGlobalVariable (simEngine 0 0) simHostEmpty "x".toList "[1, 2]".toList).state⟩
        "x".toList).value.ErrorCode = JsNoError ∧
      ∃ text,
        (GetGlobalVariable (simEngine 0 0)
          ⟨simHostEmpty.globalObject,
            (SetGlobalVariable (simEngine 0 0) simHostEmpty "x".toList "[1, 2]".toList).state⟩
          "x".toList).value.Result = some text ∧
        simParse text = some .oneTwo) :=
  ⟨by decide, by decide,
    set_then_get_round_trip (simEngine 0 0) SimJson simParse simTextOf simJsonOf
      (fun name => name = BATCH_BRIDGE) (simEngine_contract 0 0) simHostEmpty "x".toList
      "[1, 2]".toList .oneTwo (by decide) (by decide) (by decide)⟩

end ChakraBridge
